import Mathlib

/-
  Verification development for the glutin_window back-end adapter
  (src/src/lib.rs): the winit-event-to-piston-input translation and the
  cursor-capture state machine.

  Modelling conventions:
  * f64 coordinates are modelled as exact rationals (ℚ); the claims under
    study concern control flow and ordering, not floating-point rounding.
  * The winit window is external state; the pieces the adapter reads
    (inner size, scale factor) are fields of the model state, and the one
    fallible native call (set_cursor_position) is modelled by a boolean
    oracle `warp_ok` passed to the step functions.
  * `VecDeque<Event>` is a Lean `List` with the front at the head; the
    queue stores piston `Input` values since the source always wraps them
    as `Event::Input(input, None)`.
-/

set_option maxHeartbeats 1000000

namespace Glutin

/-- `KeyboardIgnoreModifiers` from the source: whether to ignore modifiers
and use standard keyboard layouts instead. -/
inductive KeyboardIgnoreModifiers
  | None
  | AbcKeyCode
  deriving DecidableEq

/-- Piston key codes: the subset of `input::Key` that appears in the
source's `map_key` table. -/
inductive Key
  | D0 | D1 | D2 | D3 | D4 | D5 | D6 | D7 | D8 | D9
  | RightParen | NumPadExclam | At | Hash | Dollar | Percent | Caret
  | Ampersand | Asterisk | LeftParen
  | A | B | C | D | E | F | G | H | I | J | K | L | M
  | N | O | P | Q | R | S | T | U | V | W | X | Y | Z
  | Quote | Quotedbl | Semicolon | Colon
  | LeftBracket | NumPadLeftBrace | RightBracket | NumPadRightBrace
  | Backslash | NumPadVerticalBar | Comma | Less | Period | Greater
  | Slash | Question | Backquote
  | Escape
  | F1 | F2 | F3 | F4 | F5 | F6 | F7 | F8
  | F9 | F10 | F11 | F12 | F13 | F14 | F15
  | Delete | Left | Up | Right | Down
  | Backspace | Return | Space
  | LAlt | RAlt | LCtrl | Menu | LShift | Tab
  | Unknown
  deriving DecidableEq

/-- Winit named keys: the subset of `winit::keyboard::NamedKey` matched by
the source's `map_key`, plus a catch-all for every other named key. -/
inductive NamedKey
  | Escape
  | F1 | F2 | F3 | F4 | F5 | F6 | F7 | F8
  | F9 | F10 | F11 | F12 | F13 | F14 | F15
  | Delete | ArrowLeft | ArrowUp | ArrowRight | ArrowDown
  | Backspace | Enter | Space
  | Alt | AltGraph | Control | Super | Shift | Tab
  | OtherNamed
  deriving DecidableEq

/-- Winit logical key (`winit::keyboard::Key`): a character string, a named
key, or anything else (dead / unidentified keys). -/
inductive WinitKey
  | Character (s : String)
  | Named (k : NamedKey)
  | Unidentified
  deriving DecidableEq

/-- Winit `ElementState`. -/
inductive ElemState
  | Pressed
  | Released
  deriving DecidableEq

/-- Winit `KeyEvent`: the fields the source reads. `physical_key` is
`some code` for `PhysicalKey::Code(code)` and `none` otherwise;
`key_repeat` models the source's `repeat` flag (`repeat` is reserved in
Lean). -/
structure KeyEvent where
  logical_key : WinitKey
  physical_key : Option Int
  state : ElemState
  key_repeat : Bool
  text : Option String
  deriving DecidableEq

/-- The apostrophe as a one-character string (used by the `map_key` table). -/
def squote : String := (Char.ofNat 39).toString

/-- Transcription of the source's `map_key`: maps a winit logical key to a
piston key code, honouring the `KeyboardIgnoreModifiers` setting.  The
Rust `match` arms with `if kim == AbcKeyCode` guards become a guarded
if-chain evaluated in the same order. -/
def map_key (input : KeyEvent) (kim : KeyboardIgnoreModifiers) : Key :=
  match input.logical_key with
  | .Character ch =>
    if (ch = "0" ∨ ch = ")") ∧ kim = KeyboardIgnoreModifiers.AbcKeyCode then Key.D0
    else if ch = "0" then Key.D0
    else if ch = ")" then Key.RightParen
    else if (ch = "1" ∨ ch = "!") ∧ kim = KeyboardIgnoreModifiers.AbcKeyCode then Key.D1
    else if ch = "1" then Key.D1
    else if ch = "!" then Key.NumPadExclam
    else if (ch = "2" ∨ ch = "@") ∧ kim = KeyboardIgnoreModifiers.AbcKeyCode then Key.D2
    else if ch = "2" then Key.D2
    else if ch = "@" then Key.At
    else if (ch = "3" ∨ ch = "#") ∧ kim = KeyboardIgnoreModifiers.AbcKeyCode then Key.D3
    else if ch = "3" then Key.D3
    else if ch = "#" then Key.Hash
    else if (ch = "4" ∨ ch = "$") ∧ kim = KeyboardIgnoreModifiers.AbcKeyCode then Key.D4
    else if ch = "4" then Key.D4
    else if ch = "$" then Key.Dollar
    else if (ch = "5" ∨ ch = "%") ∧ kim = KeyboardIgnoreModifiers.AbcKeyCode then Key.D5
    else if ch = "5" then Key.D5
    else if ch = "%" then Key.Percent
    else if (ch = "6" ∨ ch = "^") ∧ kim = KeyboardIgnoreModifiers.AbcKeyCode then Key.D6
    else if ch = "6" then Key.D6
    else if ch = "^" then Key.Caret
    else if (ch = "7" ∨ ch = "&") ∧ kim = KeyboardIgnoreModifiers.AbcKeyCode then Key.D7
    else if ch = "7" then Key.D7
    else if ch = "&" then Key.Ampersand
    else if (ch = "8" ∨ ch = "*") ∧ kim = KeyboardIgnoreModifiers.AbcKeyCode then Key.D8
    else if ch = "8" then Key.D8
    else if ch = "*" then Key.Asterisk
    else if (ch = "9" ∨ ch = "(") ∧ kim = KeyboardIgnoreModifiers.AbcKeyCode then Key.D9
    else if ch = "9" then Key.D9
    else if ch = "(" then Key.LeftParen
    else if ch = "a" ∨ ch = "A" then Key.A
    else if ch = "b" ∨ ch = "B" then Key.B
    else if ch = "c" ∨ ch = "C" then Key.C
    else if ch = "d" ∨ ch = "D" then Key.D
    else if ch = "e" ∨ ch = "E" then Key.E
    else if ch = "f" ∨ ch = "F" then Key.F
    else if ch = "g" ∨ ch = "G" then Key.G
    else if ch = "h" ∨ ch = "H" then Key.H
    else if ch = "i" ∨ ch = "I" then Key.I
    else if ch = "j" ∨ ch = "J" then Key.J
    else if ch = "k" ∨ ch = "K" then Key.K
    else if ch = "l" ∨ ch = "L" then Key.L
    else if ch = "m" ∨ ch = "M" then Key.M
    else if ch = "n" ∨ ch = "N" then Key.N
    else if ch = "o" ∨ ch = "O" then Key.O
    else if ch = "p" ∨ ch = "P" then Key.P
    else if ch = "q" ∨ ch = "Q" then Key.Q
    else if ch = "r" ∨ ch = "R" then Key.R
    else if ch = "s" ∨ ch = "S" then Key.S
    else if ch = "t" ∨ ch = "T" then Key.T
    else if ch = "u" ∨ ch = "U" then Key.U
    else if ch = "v" ∨ ch = "V" then Key.V
    else if ch = "w" ∨ ch = "W" then Key.W
    else if ch = "x" ∨ ch = "X" then Key.X
    else if ch = "y" ∨ ch = "Y" then Key.Y
    else if ch = "z" ∨ ch = "Z" then Key.Z
    else if (ch = squote ∨ ch = "\"") ∧ kim = KeyboardIgnoreModifiers.AbcKeyCode then Key.Quote
    else if ch = squote then Key.Quote
    else if ch = "\"" then Key.Quotedbl
    else if (ch = ";" ∨ ch = ":") ∧ kim = KeyboardIgnoreModifiers.AbcKeyCode then Key.Semicolon
    else if ch = ";" then Key.Semicolon
    else if ch = ":" then Key.Colon
    else if (ch = "[" ∨ ch = "\x7b") ∧ kim = KeyboardIgnoreModifiers.AbcKeyCode then Key.LeftBracket
    else if ch = "[" then Key.LeftBracket
    else if ch = "\x7b" then Key.NumPadLeftBrace
    else if (ch = "]" ∨ ch = "\x7d") ∧ kim = KeyboardIgnoreModifiers.AbcKeyCode then Key.RightBracket
    else if ch = "]" then Key.RightBracket
    else if ch = "\x7d" then Key.NumPadRightBrace
    else if (ch = "\\" ∨ ch = "|") ∧ kim = KeyboardIgnoreModifiers.AbcKeyCode then Key.Backslash
    else if ch = "\\" then Key.Backslash
    else if ch = "|" then Key.NumPadVerticalBar
    else if (ch = "," ∨ ch = "<") ∧ kim = KeyboardIgnoreModifiers.AbcKeyCode then Key.Comma
    else if ch = "," then Key.Comma
    else if ch = "<" then Key.Less
    else if (ch = "." ∨ ch = ">") ∧ kim = KeyboardIgnoreModifiers.AbcKeyCode then Key.Period
    else if ch = "." then Key.Period
    else if ch = ">" then Key.Greater
    else if (ch = "/" ∨ ch = "?") ∧ kim = KeyboardIgnoreModifiers.AbcKeyCode then Key.Slash
    else if ch = "/" then Key.Slash
    else if ch = "?" then Key.Question
    else if (ch = "`" ∨ ch = "~") ∧ kim = KeyboardIgnoreModifiers.AbcKeyCode then Key.Backquote
    else if ch = "`" then Key.Backquote
    else Key.Unknown
  | .Named n =>
    match n with
    | .Escape => Key.Escape
    | .F1 => Key.F1
    | .F2 => Key.F2
    | .F3 => Key.F3
    | .F4 => Key.F4
    | .F5 => Key.F5
    | .F6 => Key.F6
    | .F7 => Key.F7
    | .F8 => Key.F8
    | .F9 => Key.F9
    | .F10 => Key.F10
    | .F11 => Key.F11
    | .F12 => Key.F12
    | .F13 => Key.F13
    | .F14 => Key.F14
    | .F15 => Key.F15
    | .Delete => Key.Delete
    | .ArrowLeft => Key.Left
    | .ArrowUp => Key.Up
    | .ArrowRight => Key.Right
    | .ArrowDown => Key.Down
    | .Backspace => Key.Backspace
    | .Enter => Key.Return
    | .Space => Key.Space
    | .Alt => Key.LAlt
    | .AltGraph => Key.RAlt
    | .Control => Key.LCtrl
    | .Super => Key.Menu
    | .Shift => Key.LShift
    | .Tab => Key.Tab
    | .OtherNamed => Key.Unknown
  | .Unidentified => Key.Unknown

/-- Piston `ButtonState`. -/
inductive ButtonState
  | Press
  | Release
  deriving DecidableEq

/-- Piston `MouseButton`. -/
inductive MouseButton
  | Left | Right | Middle | X1 | X2 | Button6 | Button7 | Button8 | Unknown
  deriving DecidableEq

/-- Piston `Button` (keyboard or mouse; controller buttons never arise in
this back-end). -/
inductive PButton
  | Keyboard (k : Key)
  | Mouse (b : MouseButton)
  deriving DecidableEq

/-- Winit mouse buttons matched by the source's `map_mouse`. -/
inductive WMouseButton
  | Left | Right | Middle | Back | Forward | Other (n : Nat)
  deriving DecidableEq

/-- Winit `TouchPhase`. -/
inductive WTouchPhase
  | Started | Moved | Ended | Cancelled
  deriving DecidableEq

/-- Piston `Touch` phase. -/
inductive PTouch
  | Start | Move | End | Cancel
  deriving DecidableEq

/-- Piston `FileDrag`. -/
inductive FileDrag
  | Drop (path : String)
  | Hover (path : String)
  | Cancel
  deriving DecidableEq

/-- Piston `Motion` variants produced by this back-end.  `Touch` carries
`TouchArgs::new(device, id, position, pressure, phase)` flattened. -/
inductive Motion
  | MouseCursor (p : ℚ × ℚ)
  | MouseRelative (p : ℚ × ℚ)
  | MouseScroll (p : ℚ × ℚ)
  | ControllerAxis (id : Nat) (axis : Nat) (value : ℚ)
  | Touch (dev : Nat) (id : Int) (pos : ℚ × ℚ) (pressure : ℚ) (phase : PTouch)
  deriving DecidableEq

/-- Piston `Input` variants produced by this back-end.  `Resize` carries
`ResizeArgs { window_size, draw_size }`; `Close` is `Input::Close(CloseArgs)`. -/
inductive Input
  | Button (state : ButtonState) (button : PButton) (scancode : Option Int)
  | Move (m : Motion)
  | Text (s : String)
  | Resize (window_size : ℚ × ℚ) (draw_size : Nat × Nat)
  | Close
  | Cursor (b : Bool)
  | Focus (b : Bool)
  | FileDrag (f : FileDrag)
  deriving DecidableEq

/-- Transcription of the source's `map_keyboard_input`.  Returns the new
`last_key_pressed`, the final value of the `unknown` out-flag (it starts
`false` at every call site), and the produced input. -/
def map_keyboard_input (input : KeyEvent) (kim : KeyboardIgnoreModifiers)
    (last_key_pressed : Option Key) : Option Key × Bool × Option Input :=
  let key := map_key input kim
  match input.state with
  | .Pressed =>
    match last_key_pressed with
    | some last_key =>
      if last_key = key then (last_key_pressed, true, none)
      else (some key, false,
        some (Input.Button ButtonState.Press (PButton.Keyboard key) input.physical_key))
    | none => (some key, false,
        some (Input.Button ButtonState.Press (PButton.Keyboard key) input.physical_key))
  | .Released =>
    let lkp :=
      match last_key_pressed with
      | some last_key => if last_key = key then none else last_key_pressed
      | none => none
    (lkp, false,
      some (Input.Button ButtonState.Release (PButton.Keyboard key) input.physical_key))

/-- Transcription of the source's `map_mouse`. -/
def map_mouse (mouse_button : WMouseButton) : MouseButton :=
  match mouse_button with
  | .Left => MouseButton.Left
  | .Right => MouseButton.Right
  | .Middle => MouseButton.Middle
  | .Other 0 => MouseButton.X1
  | .Other 1 => MouseButton.X2
  | .Other 2 => MouseButton.Button6
  | .Other 3 => MouseButton.Button7
  | .Other 4 => MouseButton.Button8
  | _ => MouseButton.Unknown

/-- Raw winit `WindowEvent`s, restricted to the fields the source reads.
`Resized` carries a `PhysicalSize<u32>`; cursor / wheel / touch positions
are physical `f64` coordinates (here exact rationals).  Device ids are
small naturals. The variants the source maps to `None` without setting
`unknown` (`TouchpadPressure`, gestures, `ScaleFactorChanged`,
`ActivationTokenDone`, `ThemeChanged`, `Ime`, `Occluded`, `Moved`,
`ModifiersChanged`) are kept as distinct constructors. -/
inductive RawEvent
  | DroppedFile (path : String)
  | HoveredFile (path : String)
  | HoveredFileCancelled
  | Resized (w h : Nat)
  | CloseRequested
  | Destroyed
  | Focused (b : Bool)
  | KeyboardInput (ev : KeyEvent)
  | CursorMoved (pos : ℚ × ℚ)
  | CursorEntered
  | CursorLeft
  | MouseWheelPixel (pos : ℚ × ℚ)
  | MouseWheelLine (x y : ℚ)
  | MouseInput (state : ElemState) (button : WMouseButton)
  | AxisMotion (device_id : Nat) (axis : Nat) (value : ℚ)
  | Touch (phase : WTouchPhase) (location : ℚ × ℚ) (id : Nat)
  | TouchpadPressure
  | PinchGesture
  | RotationGesture
  | PanGesture
  | DoubleTapGesture
  | ScaleFactorChanged
  | ActivationTokenDone
  | ThemeChanged
  | Ime
  | Occluded (b : Bool)
  | RedrawRequested
  | Moved
  | ModifiersChanged
  deriving DecidableEq

/-- Lookup in the adapter's device-id map (`FxHashMap<DeviceId, u32>`,
modelled as an association list). -/
def find_device (did : Nat) : List (Nat × Nat) → Option Nat
  | [] => none
  | (k, v) :: rest => if k = did then some v else find_device did rest

/-- The mutable state threaded through `map_window_event`
(`last_key_pressed`, `devices`, `device_id_map` in the source). -/
structure MapState where
  last_key_pressed : Option Key
  devices : Nat
  device_id_map : List (Nat × Nat)
  deriving DecidableEq

/-- Maps a winit touch phase to the piston one (the `match phase` in the
source's `Touch` arm). -/
def map_touch_phase (phase : WTouchPhase) : PTouch :=
  match phase with
  | .Started => PTouch.Start
  | .Moved => PTouch.Move
  | .Ended => PTouch.End
  | .Cancelled => PTouch.Cancel

/-- Transcription of the source's `map_window_event`: converts a winit
`WindowEvent` into a piston `Input`, threading the mutable state and the
`unknown` out-flag.  Result: (new map state, unknown flag, produced input). -/
def map_window_event (window_event : RawEvent) (scale_factor : ℚ)
    (kim : KeyboardIgnoreModifiers) (ms : MapState) :
    MapState × Bool × Option Input :=
  match window_event with
  | .DroppedFile path => (ms, false, some (Input.FileDrag (FileDrag.Drop path)))
  | .HoveredFile path => (ms, false, some (Input.FileDrag (FileDrag.Hover path)))
  | .HoveredFileCancelled => (ms, false, some (Input.FileDrag FileDrag.Cancel))
  | .Resized w h =>
    (ms, false, some (Input.Resize ((w : ℚ), (h : ℚ)) (w, h)))
  | .CloseRequested => (ms, false, some Input.Close)
  | .Destroyed => (ms, false, some Input.Close)
  | .Focused focused => (ms, false, some (Input.Focus focused))
  | .KeyboardInput ev =>
    let r := map_keyboard_input ev kim ms.last_key_pressed
    ({ ms with last_key_pressed := r.1 }, r.2.1, r.2.2)
  | .CursorMoved pos =>
    (ms, false, some (Input.Move (Motion.MouseCursor
      (pos.1 / scale_factor, pos.2 / scale_factor))))
  | .CursorEntered => (ms, false, some (Input.Cursor true))
  | .CursorLeft => (ms, false, some (Input.Cursor false))
  | .MouseWheelPixel pos =>
    (ms, false, some (Input.Move (Motion.MouseScroll
      (pos.1 / scale_factor, pos.2 / scale_factor))))
  | .MouseWheelLine x y =>
    (ms, false, some (Input.Move (Motion.MouseScroll (x, y))))
  | .MouseInput state button =>
    let st := match state with
      | ElemState.Pressed => ButtonState.Press
      | ElemState.Released => ButtonState.Release
    (ms, false, some (Input.Button st (PButton.Mouse (map_mouse button)) none))
  | .AxisMotion device_id axis value =>
    match find_device device_id ms.device_id_map with
    | some id => (ms, false, some (Input.Move (Motion.ControllerAxis id axis value)))
    | none =>
      let id := ms.devices
      ({ ms with devices := ms.devices + 1,
                 device_id_map := ms.device_id_map ++ [(device_id, id)] },
       false, some (Input.Move (Motion.ControllerAxis id axis value)))
  | .Touch phase location id =>
    (ms, false, some (Input.Move (Motion.Touch 0 (Int.ofNat id)
      (location.1 / scale_factor, location.2 / scale_factor) 1
      (map_touch_phase phase))))
  | _ => (ms, false, none)

/-- The adapter state: the fields of the source's `GlutinWindow` that the
event translation reads or writes, plus the two pieces of external winit
window state the adapter consults (`inner_size`, `scale_factor`) and the
cursor visibility it sets. -/
structure GlutinWindow where
  keyboard_ignore_modifiers : KeyboardIgnoreModifiers
  title : String
  exit_on_esc : Bool
  should_close : Bool
  automatic_close : Bool
  is_capturing_cursor : Bool
  last_cursor_pos : Option (ℚ × ℚ)
  mouse_relative : Option (ℚ × ℚ)
  cursor_pos : Option (ℚ × ℚ)
  last_key_pressed : Option Key
  devices : Nat
  device_id_map : List (Nat × Nat)
  events : List Input
  inner_size : Nat × Nat
  scale_factor : ℚ
  cursor_visible : Bool
  deriving DecidableEq

/-- `Window::size` from the source: the physical inner size divided by the
scale factor, truncated to `u32` (`(w as f64 / hidpi) as u32`), then
widened back to `f64` via `Size`. -/
def size (st : GlutinWindow) : ℚ × ℚ :=
  (((⌊(st.inner_size.1 : ℚ) / st.scale_factor⌋.toNat : Nat) : ℚ),
   ((⌊(st.inner_size.2 : ℚ) / st.scale_factor⌋.toNat : Nat) : ℚ))

/-- The source's `GlutinWindow::fake_capture`: if a baseline cursor
position is recorded and its delta to the window center is nonzero, warp
the pointer to the center (a native call that may fail, modelled by the
`warp_ok` oracle); on success the baseline becomes the center.  The second
component reports whether a warp was attempted. -/
def fake_capture (warp_ok : Bool) (st : GlutinWindow) : GlutinWindow × Bool :=
  match st.last_cursor_pos with
  | none => (st, false)
  | some pos =>
    let s := size st
    let cx := s.1 / 2
    let cy := s.2 / 2
    let dx := cx - pos.1
    let dy := cy - pos.2
    if dx ≠ 0 ∨ dy ≠ 0 then
      if warp_ok then ({ st with last_cursor_pos := some (cx, cy) }, true)
      else (st, true)
    else (st, false)

/-- The source's `GlutinWindow::pre_pop_front_event`: drain a pending
absolute cursor position (`cursor_pos`), else a pending relative delta
(`mouse_relative`). -/
def pre_pop_front_event (st : GlutinWindow) : GlutinWindow × Option Input :=
  match st.cursor_pos with
  | some pos =>
    ({ st with cursor_pos := none }, some (Input.Move (Motion.MouseCursor pos)))
  | none =>
    match st.mouse_relative with
    | some d =>
      ({ st with mouse_relative := none }, some (Input.Move (Motion.MouseRelative d)))
    | none => (st, none)

/-- `self.events.push_back(Event::Input(input, None))` guarded by the
`if let Some(input)` at the call sites. -/
def push_event (st : GlutinWindow) (i : Option Input) : GlutinWindow :=
  match i with
  | some inp => { st with events := st.events ++ [inp] }
  | none => st

/-- Projects the adapter fields passed by `&mut` into `map_window_event`. -/
def mapst (st : GlutinWindow) : MapState :=
  ⟨st.last_key_pressed, st.devices, st.device_id_map⟩

/-- Writes back the fields mutated through `map_window_event`. -/
def set_mapst (st : GlutinWindow) (ms : MapState) : GlutinWindow :=
  { st with last_key_pressed := ms.last_key_pressed,
            devices := ms.devices,
            device_id_map := ms.device_id_map }

/-- The `input` closure in the source's `CursorMoved` arm of
`handle_event`: capture-mode relative emission, scheduling of
`mouse_relative`, and baseline updates.  `x, y` are already logical. -/
def cursor_move_input (x y : ℚ) (warp_ok : Bool) (st : GlutinWindow) :
    GlutinWindow × Option Input :=
  match st.last_cursor_pos with
  | some pos =>
    let dx := x - pos.1
    let dy := y - pos.2
    if st.is_capturing_cursor = true then
      let st1 := { st with last_cursor_pos := some (x, y) }
      let st2 := (fake_capture warp_ok st1).1
      (st2, some (Input.Move (Motion.MouseRelative (dx, dy))))
    else
      ({ st with mouse_relative := some (dx, dy), last_cursor_pos := some (x, y) },
       some (Input.Move (Motion.MouseCursor (x, y))))
  | none =>
    if st.is_capturing_cursor = true then
      ({ st with last_cursor_pos := some (x, y) }, none)
    else
      ({ st with last_cursor_pos := some (x, y) },
       some (Input.Move (Motion.MouseCursor (x, y))))

/-- The tail of the source's `handle_event` (after the `match`): translate
via `map_window_event`, then the `pre_pop_front_event` juggling — when a
pre-event is pending, the fresh translation is pushed to the back of the
queue and the pre-event is returned instead.  Result: (state, returned
input, unknown flag). -/
def handle_event_generic (e : RawEvent) (st : GlutinWindow) :
    GlutinWindow × Option Input × Bool :=
  let r := map_window_event e st.scale_factor st.keyboard_ignore_modifiers (mapst st)
  let st1 := set_mapst st r.1
  let p := pre_pop_front_event st1
  if p.2.isSome = true then (push_event p.1 r.2.2, p.2, r.2.1)
  else (p.1, r.2.2, r.2.1)

/-- The source's `GlutinWindow::handle_event`.  Result: (state, returned
input, unknown flag). -/
def handle_event (e : RawEvent) (warp_ok : Bool) (st : GlutinWindow) :
    GlutinWindow × Option Input × Bool :=
  match e with
  | .KeyboardInput ev =>
    if st.exit_on_esc = true ∧ ev.logical_key = WinitKey.Named NamedKey.Escape then
      ({ st with should_close := true }, none, false)
    else
      match ev.text with
      | some s =>
        if ev.key_repeat = false then
          let r := map_window_event (RawEvent.KeyboardInput ev) st.scale_factor
            st.keyboard_ignore_modifiers (mapst st)
          let st1 := push_event (set_mapst st r.1) r.2.2
          (st1, some (Input.Text s), r.2.1)
        else
          (st, some (Input.Text s), false)
      | none => handle_event_generic (RawEvent.KeyboardInput ev) st
  | .CursorMoved pos =>
    let x := pos.1 / st.scale_factor
    let y := pos.2 / st.scale_factor
    let p := pre_pop_front_event st
    let c := cursor_move_input x y warp_ok p.1
    if p.2.isSome = true then (push_event c.1 c.2, p.2, false)
    else (c.1, c.2, false)
  | e => handle_event_generic e st

/-- The catch-all arm of the source's `ApplicationHandler::window_event`:
the event goes through `handle_event` and, when some input is returned
and the event was not unknown, the input is pushed to the back of the
queue. -/
def window_event_generic (e : RawEvent) (warp_ok : Bool) (st : GlutinWindow) :
    GlutinWindow :=
  let r := handle_event e warp_ok st
  match r.2.1 with
  | some ev =>
    if r.2.2 = false then { r.1 with events := r.1.events ++ [ev] } else r.1
  | none => r.1

/-- The source's `ApplicationHandler::window_event` for `GlutinWindow`:
`CloseRequested` only sets `should_close` when `automatic_close` is on
(and exits the native loop — external); `RedrawRequested` re-requests a
redraw (external); everything else is handled by the catch-all arm. -/
def window_event (e : RawEvent) (warp_ok : Bool) (st : GlutinWindow) : GlutinWindow :=
  match e with
  | .CloseRequested =>
    if st.automatic_close = true then { st with should_close := true } else st
  | .RedrawRequested => st
  | e => window_event_generic e warp_ok st

/-- The queue pop shared by `poll_event`, `wait_event` and
`wait_event_timeout`: take the front of the queue and, if it is a close
event, mark should-close. (The preceding `pump_app_events` feeds raw
events through `window_event`; it is the environment in this model.) -/
def pop_front_close_check (st : GlutinWindow) : GlutinWindow × Option Input :=
  match st.events with
  | [] => (st, none)
  | e :: rest =>
    let st1 := { st with events := rest }
    match e with
    | Input.Close => ({ st1 with should_close := true }, some e)
    | _ => (st1, some e)

/-- The source's `Window::poll_event` after pumping. -/
def poll_event (st : GlutinWindow) : GlutinWindow × Option Input :=
  pop_front_close_check st

/-- The source's `Window::wait_event_timeout` after pumping. -/
def wait_event_timeout (st : GlutinWindow) : GlutinWindow × Option Input :=
  pop_front_close_check st

/-- The result of `wait_event`: an input event, or the idle fallback
`Event::Loop(Loop::Idle(IdleArgs { dt: 0.0 }))`. -/
inductive EventOut
  | In (i : Input)
  | Idle
  deriving DecidableEq

/-- The source's `Window::wait_event` after pumping:
`event.unwrap_or(Event::Loop(Loop::Idle(..)))`. -/
def wait_event (st : GlutinWindow) : GlutinWindow × EventOut :=
  let r := pop_front_close_check st
  match r.2 with
  | some i => (r.1, EventOut.In i)
  | none => (r.1, EventOut.Idle)

/-- The source's `AdvancedWindow::set_capture_cursor`: flip the flag, set
cursor visibility, and on enable run `fake_capture`. -/
def set_capture_cursor (value : Bool) (warp_ok : Bool) (st : GlutinWindow) :
    GlutinWindow :=
  let st1 := { st with is_capturing_cursor := value, cursor_visible := !value }
  if value = true then (fake_capture warp_ok st1).1 else st1

/-- The adapter state built by `GlutinWindow::from_event_loop` (before any
native event arrives): flags from the settings, all cursor/keyboard
tracking state empty, empty queue. -/
def init_state (exit_on_esc automatic_close : Bool)
    (kim : KeyboardIgnoreModifiers) (inner_size : Nat × Nat)
    (scale_factor : ℚ) (title : String) : GlutinWindow :=
  { keyboard_ignore_modifiers := kim,
    title := title,
    exit_on_esc := exit_on_esc,
    should_close := false,
    automatic_close := automatic_close,
    is_capturing_cursor := false,
    last_cursor_pos := none,
    mouse_relative := none,
    cursor_pos := none,
    last_key_pressed := none,
    devices := 0,
    device_id_map := [],
    events := [],
    inner_size := inner_size,
    scale_factor := scale_factor,
    cursor_visible := true }

/-- States reachable by the adapter: the initial state, followed by any
interleaving of native-event deliveries (`window_event`), queue reads
(`poll_event` / `wait_event` / `wait_event_timeout`) and the public
mutators that touch the modelled fields. -/
inductive Reachable : GlutinWindow → Prop
  | init (e a : Bool) (kim : KeyboardIgnoreModifiers) (isz : Nat × Nat)
      (s : ℚ) (t : String) : Reachable (init_state e a kim isz s t)
  | window_event (st : GlutinWindow) (ev : RawEvent) (w : Bool) :
      Reachable st → Reachable (window_event ev w st)
  | poll (st : GlutinWindow) : Reachable st → Reachable (poll_event st).1
  | wait (st : GlutinWindow) : Reachable st → Reachable (wait_event st).1
  | wait_timeout (st : GlutinWindow) : Reachable st →
      Reachable (wait_event_timeout st).1
  | set_capture (st : GlutinWindow) (v w : Bool) :
      Reachable st → Reachable (set_capture_cursor v w st)
  | set_should_close (st : GlutinWindow) (v : Bool) :
      Reachable st → Reachable { st with should_close := v }
  | set_exit_on_esc (st : GlutinWindow) (v : Bool) :
      Reachable st → Reachable { st with exit_on_esc := v }
  | set_automatic_close (st : GlutinWindow) (v : Bool) :
      Reachable st → Reachable { st with automatic_close := v }
  | set_title (st : GlutinWindow) (t : String) :
      Reachable st → Reachable { st with title := t }

/-! ### Run helpers and concrete scenario states -/

/-- Processes a list of key events through `map_keyboard_input`, threading
`last_key_pressed`, collecting each produced input. -/
def run_keyboard (kim : KeyboardIgnoreModifiers) :
    List KeyEvent → Option Key → List (Option Input)
  | [], _ => []
  | ev :: rest, last =>
    let r := map_keyboard_input ev kim last
    r.2.2 :: run_keyboard kim rest r.1

/-- Whether an output is a button-press event for key `k`. -/
def is_press_of (k : Key) (o : Option Input) : Bool :=
  match o with
  | some (Input.Button ButtonState.Press (PButton.Keyboard k2) _) => decide (k2 = k)
  | _ => false

/-- Number of button-press events for key `k` in a list of outputs. -/
def count_presses (k : Key) (l : List (Option Input)) : Nat :=
  (l.filter (is_press_of k)).length

/-- Fresh adapter, capture off, no baseline, scale factor 1. -/
def c1_s0 : GlutinWindow :=
  init_state false true KeyboardIgnoreModifiers.None (640, 480) 1 "t"

/-- After a raw cursor move to `(10,10)`. -/
def c1_s1 : GlutinWindow := window_event (RawEvent.CursorMoved (10, 10)) true c1_s0

/-- After raw cursor moves to `(10,10)` then `(15,12)`. -/
def c1_s2 : GlutinWindow := window_event (RawEvent.CursorMoved (15, 12)) true c1_s1

/-- Fresh adapter with automatic close disabled. -/
def c2_state : GlutinWindow :=
  init_state false false KeyboardIgnoreModifiers.None (640, 480) 1 "t"

/-- Fresh adapter, exit-on-escape enabled. -/
def c4_state : GlutinWindow :=
  init_state true false KeyboardIgnoreModifiers.None (640, 480) 1 "t"

/-- A raw press of the escape key. -/
def c4_ev : KeyEvent :=
  ⟨WinitKey.Named NamedKey.Escape, some 1, ElemState.Pressed, false, none⟩

/-- Fresh adapter, exit-on-escape disabled. -/
def c6_state : GlutinWindow :=
  init_state false true KeyboardIgnoreModifiers.None (640, 480) 1 "t"

/-- A raw tab-key press carrying the control character TAB as text. -/
def c6_ev : KeyEvent :=
  ⟨WinitKey.Character "\t", none, ElemState.Pressed, true, some "\t"⟩

/-- Adapter with a recorded cursor baseline at the origin (away from the
window center `(320,240)`). -/
def c7_state : GlutinWindow :=
  { init_state false true KeyboardIgnoreModifiers.None (640, 480) 1 "t" with
      last_cursor_pos := some (0, 0) }

/-- Adapter whose recorded baseline already sits at the window center. -/
def c8_state : GlutinWindow :=
  { init_state false true KeyboardIgnoreModifiers.None (640, 480) 1 "t" with
      last_cursor_pos := some (320, 240) }

/-- Adapter with a recorded baseline away from the center (for the
failed-warp part of claim C8). -/
def c8_state2 : GlutinWindow :=
  { init_state false true KeyboardIgnoreModifiers.None (640, 480) 1 "t" with
      last_cursor_pos := some (100, 100) }

/-- Same scenario as `c1_s0` (separate chain for claim C9). -/
def c9_s0 : GlutinWindow :=
  init_state false true KeyboardIgnoreModifiers.None (640, 480) 1 "t"

/-- After a raw cursor move to `(10,10)`. -/
def c9_s1 : GlutinWindow := window_event (RawEvent.CursorMoved (10, 10)) true c9_s0

/-- After raw cursor moves to `(10,10)` then `(15,12)`: the relative delta
`(5,2)` is pending in `mouse_relative`. -/
def c9_s2 : GlutinWindow := window_event (RawEvent.CursorMoved (15, 12)) true c9_s1

/-- After a third raw cursor move to `(20,20)`, which drains the pending
delta. -/
def c9_s3 : GlutinWindow := window_event (RawEvent.CursorMoved (20, 20)) true c9_s2

/-- Adapter whose queue holds exactly one close event. -/
def c10_state : GlutinWindow :=
  { init_state false false KeyboardIgnoreModifiers.None (640, 480) 1 "t" with
      events := [Input.Close] }



/-! ### Helper lemmas -/


/-- `map_key` reads only the logical key of its argument. -/
theorem map_key_state_irrelevant (lk : WinitKey) (pk pk2 : Option Int)
    (s1 s2 : ElemState) (r1 r2 : Bool) (t1 t2 : Option String)
    (kim : KeyboardIgnoreModifiers) :
    map_key ⟨lk, pk, s1, r1, t1⟩ kim = map_key ⟨lk, pk2, s2, r2, t2⟩ kim := rfl

/-- `size` ignores the capture flag and cursor visibility. -/
theorem size_update_capture (st : GlutinWindow) (v c : Bool) :
    size { st with is_capturing_cursor := v, cursor_visible := c } = size st := rfl

/-- `fake_capture` never touches the pending absolute position. -/
theorem fake_capture_cursor_pos (w : Bool) (st : GlutinWindow) :
    (fake_capture w st).1.cursor_pos = st.cursor_pos := by
  unfold fake_capture
  rcases st.last_cursor_pos with _ | p
  · rfl
  · dsimp only
    split
    · cases w <;> rfl
    · rfl

/-- `fake_capture` never touches the event queue. -/
theorem fake_capture_events (w : Bool) (st : GlutinWindow) :
    (fake_capture w st).1.events = st.events := by
  unfold fake_capture
  rcases st.last_cursor_pos with _ | p
  · rfl
  · dsimp only
    split
    · cases w <;> rfl
    · rfl

/-- After `pre_pop_front_event` the pending absolute position is empty. -/
theorem pre_pop_cursor_pos (st : GlutinWindow) :
    (pre_pop_front_event st).1.cursor_pos = none := by
  unfold pre_pop_front_event
  rcases hc : st.cursor_pos with _ | p
  · rcases hm : st.mouse_relative with _ | d
    · simpa using hc
    · simpa using hc
  · rfl

/-- The cursor-move closure never touches the pending absolute position. -/
theorem cursor_move_input_cursor_pos (x y : ℚ) (w : Bool) (st : GlutinWindow) :
    (cursor_move_input x y w st).1.cursor_pos = st.cursor_pos := by
  unfold cursor_move_input
  rcases st.last_cursor_pos with _ | p
  · dsimp only
    split <;> rfl
  · dsimp only
    split
    · rw [fake_capture_cursor_pos]
    · rfl

/-- `push_event` never touches the pending absolute position. -/
theorem push_event_cursor_pos (st : GlutinWindow) (i : Option Input) :
    (push_event st i).cursor_pos = st.cursor_pos := by
  unfold push_event
  rcases i with _ | inp <;> rfl

/-- `set_mapst` never touches the pending absolute position. -/
theorem set_mapst_cursor_pos (st : GlutinWindow) (ms : MapState) :
    (set_mapst st ms).cursor_pos = st.cursor_pos := rfl

/-- After the generic tail of `handle_event` the pending absolute position
is empty. -/
theorem handle_event_generic_cursor_pos (e : RawEvent) (st : GlutinWindow) :
    (handle_event_generic e st).1.cursor_pos = none := by
  unfold handle_event_generic
  dsimp only
  split
  · rw [push_event_cursor_pos, pre_pop_cursor_pos]
  · rw [pre_pop_cursor_pos]

/-- `handle_event` keeps the pending absolute position empty. -/
theorem handle_event_cursor_pos (e : RawEvent) (w : Bool) (st : GlutinWindow)
    (h : st.cursor_pos = none) :
    (handle_event e w st).1.cursor_pos = none := by
  cases e <;>
    simp only [handle_event, handle_event_generic_cursor_pos]
  case KeyboardInput ev =>
    split
    · exact h
    · rcases htext : ev.text with _ | s
      · exact handle_event_generic_cursor_pos _ _
      · dsimp only
        split
        · rw [push_event_cursor_pos, set_mapst_cursor_pos]
          exact h
        · exact h
  case CursorMoved pos =>
    split
    · rw [push_event_cursor_pos, cursor_move_input_cursor_pos, pre_pop_cursor_pos]
    · rw [cursor_move_input_cursor_pos, pre_pop_cursor_pos]

/-- `window_event` keeps the pending absolute position empty. -/
theorem window_event_generic_cursor_pos (e : RawEvent) (w : Bool)
    (st : GlutinWindow) (h : st.cursor_pos = none) :
    (window_event_generic e w st).cursor_pos = none := by
  unfold window_event_generic
  dsimp only
  split
  · split
    · exact handle_event_cursor_pos e w st h
    · exact handle_event_cursor_pos e w st h
  · exact handle_event_cursor_pos e w st h

/-- `window_event` keeps the pending absolute position empty. -/
theorem window_event_cursor_pos (e : RawEvent) (w : Bool) (st : GlutinWindow)
    (h : st.cursor_pos = none) :
    (window_event e w st).cursor_pos = none := by
  cases e
  case CloseRequested =>
    by_cases ha : st.automatic_close = true
    · simp only [window_event, if_pos ha]
      exact h
    · simp only [window_event, if_neg ha]
      exact h
  case RedrawRequested => exact h
  all_goals exact window_event_generic_cursor_pos _ _ _ h

/-- The queue pop keeps the pending absolute position empty. -/
theorem pop_front_cursor_pos (st : GlutinWindow) (h : st.cursor_pos = none) :
    (pop_front_close_check st).1.cursor_pos = none := by
  unfold pop_front_close_check
  rcases st.events with _ | ⟨e, rest⟩
  · exact h
  · dsimp only
    cases e <;> exact h

/-- `set_capture_cursor` keeps the pending absolute position empty. -/
theorem set_capture_cursor_cursor_pos (v w : Bool) (st : GlutinWindow)
    (h : st.cursor_pos = none) :
    (set_capture_cursor v w st).cursor_pos = none := by
  unfold set_capture_cursor
  dsimp only
  split
  · rw [fake_capture_cursor_pos]
    exact h
  · exact h

/-- In every reachable adapter state the pending absolute position
(`cursor_pos`) is empty: nothing in this version of the source ever sets
it, so at most one of the two pending-motion fields is ever non-empty. -/
theorem cursor_pos_invariant (st : GlutinWindow) (h : Reachable st) :
    st.cursor_pos = none := by
  induction h with
  | init e a kim isz s t => rfl
  | window_event st ev w _ ih => exact window_event_cursor_pos ev w st ih
  | poll st _ ih => exact pop_front_cursor_pos st ih
  | wait st _ ih =>
    show (wait_event st).1.cursor_pos = none
    unfold wait_event
    dsimp only
    split <;> exact pop_front_cursor_pos st ih
  | wait_timeout st _ ih => exact pop_front_cursor_pos st ih
  | set_capture st v w _ ih => exact set_capture_cursor_cursor_pos v w st ih
  | set_should_close st v _ ih => exact ih
  | set_exit_on_esc st v _ ih => exact ih
  | set_automatic_close st v _ ih => exact ih
  | set_title st t _ ih => exact ih

/-! ### Claim theorems -/

/-- Claim C3: for every key, a press-press sequence with no intervening
release yields exactly one button-press event (the repeat is discarded via
the unknown flag), while press-release-press yields exactly two. -/
theorem C3_key_repeat_suppression (lk : WinitKey) (pk : Option Int)
    (kim : KeyboardIgnoreModifiers) :
    count_presses (map_key ⟨lk, pk, ElemState.Pressed, false, none⟩ kim)
      (run_keyboard kim [⟨lk, pk, ElemState.Pressed, false, none⟩,
                         ⟨lk, pk, ElemState.Pressed, false, none⟩] none) = 1 ∧
    count_presses (map_key ⟨lk, pk, ElemState.Pressed, false, none⟩ kim)
      (run_keyboard kim [⟨lk, pk, ElemState.Pressed, false, none⟩,
                         ⟨lk, pk, ElemState.Released, false, none⟩,
                         ⟨lk, pk, ElemState.Pressed, false, none⟩] none) = 2 ∧
    (map_keyboard_input ⟨lk, pk, ElemState.Pressed, false, none⟩ kim
      (some (map_key ⟨lk, pk, ElemState.Pressed, false, none⟩ kim))).2.1 = true := by
  have hk : map_key ⟨lk, pk, ElemState.Released, false, none⟩ kim
      = map_key ⟨lk, pk, ElemState.Pressed, false, none⟩ kim :=
    map_key_state_irrelevant lk pk pk ElemState.Released ElemState.Pressed
      false false none none kim
  simp [run_keyboard, map_keyboard_input, count_presses, is_press_of, hk,
    List.filter]

/-- Claim C4: with exit-on-escape enabled, a raw escape key press only
sets should-close; no engine event is produced or queued. -/
theorem C4_escape_swallowed (st : GlutinWindow) (ev : KeyEvent) (w : Bool)
    (h1 : st.exit_on_esc = true)
    (h2 : ev.logical_key = WinitKey.Named NamedKey.Escape)
    (_h3 : ev.state = ElemState.Pressed) :
    (window_event (RawEvent.KeyboardInput ev) w st).should_close = true ∧
    (window_event (RawEvent.KeyboardInput ev) w st).events = st.events := by
  simp [window_event, window_event_generic, handle_event, h1, h2]

/-- Witness for claim C4 at a concrete state and escape press. -/
theorem C4_witness :
    (window_event (RawEvent.KeyboardInput c4_ev) true c4_state).should_close = true ∧
    (window_event (RawEvent.KeyboardInput c4_ev) true c4_state).events
      = c4_state.events :=
  C4_escape_swallowed c4_state c4_ev true rfl rfl rfl

/-- Claim C5 (amended): the resize translation carries the physical size
both as the window size and as the draw size; the scale factor is not
applied. -/
theorem C5_amended_resize (w h : Nat) (s : ℚ) (kim : KeyboardIgnoreModifiers)
    (ms : MapState) :
    map_window_event (RawEvent.Resized w h) s kim ms
      = (ms, false, some (Input.Resize ((w : ℚ), (h : ℚ)) (w, h))) := rfl

/-- Counterexample to claim C5 as stated: at physical size `(100,50)` and
scale factor `2` the translated window size is `(100,50)`, not the logical
`(50,25)` the claim requires. -/
theorem C5_counterexample :
    (map_window_event (RawEvent.Resized 100 50) 2 KeyboardIgnoreModifiers.None
      ⟨none, 0, []⟩).2.2 = some (Input.Resize (100, 50) (100, 50)) ∧
    (map_window_event (RawEvent.Resized 100 50) 2 KeyboardIgnoreModifiers.None
      ⟨none, 0, []⟩).2.2 ≠ some (Input.Resize (50, 25) (100, 50)) := by
  constructor
  · rfl
  · norm_num [map_window_event]

/-- Claim C8: `fake_capture` attempts no warp when the delta to the window
center is exactly zero (or no baseline is recorded); a failed warp leaves
the recorded baseline unchanged; the baseline changes only on a successful
warp, and then only to the window center. -/
theorem C8_fake_capture_warp (st : GlutinWindow) (w : Bool) :
    (∀ p, st.last_cursor_pos = some p →
      (size st).1 / 2 - p.1 = 0 → (size st).2 / 2 - p.2 = 0 →
      (fake_capture w st).2 = false) ∧
    (w = false → (fake_capture w st).1.last_cursor_pos = st.last_cursor_pos) ∧
    ((fake_capture w st).1.last_cursor_pos ≠ st.last_cursor_pos →
      w = true ∧ (fake_capture w st).1.last_cursor_pos
        = some ((size st).1 / 2, (size st).2 / 2)) := by
  rcases hl : st.last_cursor_pos with _ | p
  · simp [fake_capture, hl]
  · by_cases hd : (size st).1 / 2 - p.1 ≠ 0 ∨ (size st).2 / 2 - p.2 ≠ 0
    · cases w <;> simp [fake_capture, hl, hd] <;> tauto
    · simp [fake_capture, hl, hd]

/-- Size of the window in the claim C8 scenario states. -/
theorem c8_size : size c8_state = (640, 480) := by
  simp [c8_state, init_state, size]

/-- Witness for claim C8: with the baseline at the center no warp is
attempted, and with a failed warp the baseline stays put. -/
theorem C8_witness :
    (fake_capture true c8_state).2 = false ∧
    (fake_capture false c8_state2).1.last_cursor_pos
      = c8_state2.last_cursor_pos :=
  ⟨(C8_fake_capture_warp c8_state true).1 (320, 240) rfl
      (by rw [c8_size]; norm_num) (by rw [c8_size]; norm_num),
   (C8_fake_capture_warp c8_state2 false).2.1 rfl⟩

/-- Claim C10: whenever a read operation returns a close event, the
adapter marks itself as should-close, independent of the automatic-close
setting. -/
theorem C10_close_sets_should_close (st : GlutinWindow) :
    ((poll_event st).2 = some Input.Close →
      (poll_event st).1.should_close = true) ∧
    ((wait_event_timeout st).2 = some Input.Close →
      (wait_event_timeout st).1.should_close = true) ∧
    ((wait_event st).2 = EventOut.In Input.Close →
      (wait_event st).1.should_close = true) := by
  rcases hq : st.events with _ | ⟨e, rest⟩
  · simp [poll_event, wait_event_timeout, wait_event, pop_front_close_check, hq]
  · cases e <;>
      simp [poll_event, wait_event_timeout, wait_event, pop_front_close_check, hq]

/-- Witness for claim C10 at a queue holding one close event. -/
theorem C10_witness :
    (poll_event c10_state).1.should_close = true ∧
    (wait_event_timeout c10_state).1.should_close = true ∧
    (wait_event c10_state).1.should_close = true :=
  ⟨(C10_close_sets_should_close c10_state).1 rfl,
   (C10_close_sets_should_close c10_state).2.1 rfl,
   (C10_close_sets_should_close c10_state).2.2 rfl⟩


/-- Counterexample to claim C1 as stated: after raw moves to `(10,10)`
then `(15,12)` from a fresh state, the second poll returns the absolute
motion `(15,12)`, not the relative motion `(5,2)` the claim requires. -/
theorem C1_counterexample :
    (poll_event (poll_event c1_s2).1).2
        = some (Input.Move (Motion.MouseCursor (15, 12))) ∧
    (poll_event (poll_event c1_s2).1).2
        ≠ some (Input.Move (Motion.MouseRelative (5, 2))) := by
  constructor
  · norm_num [c1_s2, c1_s1, c1_s0, init_state, window_event,
      window_event_generic, handle_event, handle_event_generic,
      pre_pop_front_event, cursor_move_input, push_event, poll_event,
      pop_front_close_check, fake_capture, mapst, set_mapst, map_window_event]
  · norm_num [c1_s2, c1_s1, c1_s0, init_state, window_event,
      window_event_generic, handle_event, handle_event_generic,
      pre_pop_front_event, cursor_move_input, push_event, poll_event,
      pop_front_close_check, fake_capture, mapst, set_mapst, map_window_event]
    decide

/-- Claim C1 (amended): the two raw moves enqueue two absolute-motion
events; successive polls return absolute `(10,10)`, then absolute
`(15,12)`, then nothing, and the relative delta `(5,2)` is left pending in
`mouse_relative` (it is enqueued only while a later native event is
handled, after that event's translation). -/
theorem C1_amended :
    (poll_event c1_s2).2 = some (Input.Move (Motion.MouseCursor (10, 10))) ∧
    (poll_event (poll_event c1_s2).1).2
        = some (Input.Move (Motion.MouseCursor (15, 12))) ∧
    (poll_event (poll_event (poll_event c1_s2).1).1).2 = none ∧
    c1_s2.mouse_relative = some (5, 2) := by
  norm_num [c1_s2, c1_s1, c1_s0, init_state, window_event, window_event_generic,
    handle_event, handle_event_generic, pre_pop_front_event, cursor_move_input,
    push_event, poll_event, pop_front_close_check, fake_capture, mapst,
    set_mapst, map_window_event]

/-- Counterexample to claim C2 as stated: with automatic close disabled, a
raw close request enqueues nothing — the subsequent poll returns no event
at all (in particular no close event). -/
theorem C2_counterexample :
    (poll_event (window_event RawEvent.CloseRequested true c2_state)).2 = none ∧
    (poll_event (window_event RawEvent.CloseRequested true c2_state)).1.should_close
      = false := by
  norm_num [c2_state, init_state, window_event, poll_event, pop_front_close_check]

/-- Claim C2 (amended): with automatic close disabled, a raw close request
leaves the adapter state entirely unchanged — no engine event is queued
and should-close stays false. -/
theorem C2_amended_close_ignored (st : GlutinWindow) (w : Bool)
    (h : st.automatic_close = false) :
    window_event RawEvent.CloseRequested w st = st := by
  simp [window_event, h]

/-- Witness for the amended claim C2 at a concrete state. -/
theorem C2_witness :
    window_event RawEvent.CloseRequested true c2_state = c2_state :=
  C2_amended_close_ignored c2_state true rfl

/-- Counterexample to claim C6 as stated: a text input carrying the
control character TAB is translated to a text event carrying that very
string, not the empty string the claim requires. -/
theorem C6_counterexample :
    (handle_event (RawEvent.KeyboardInput c6_ev) true c6_state).2.1
        = some (Input.Text "\t") ∧
    (handle_event (RawEvent.KeyboardInput c6_ev) true c6_state).2.1
        ≠ some (Input.Text "") := by
  constructor
  · rfl
  · simp [c6_state, c6_ev, init_state, handle_event]

/-- Claim C6 (amended): every text/character input whose key is not a
swallowed escape is translated to a text event carrying the input text
unchanged; no control-character filtering is applied. -/
theorem C6_amended_text_passthrough (st : GlutinWindow) (ev : KeyEvent)
    (s : String) (w : Bool) (h1 : ev.text = some s)
    (h2 : ¬(st.exit_on_esc = true ∧
            ev.logical_key = WinitKey.Named NamedKey.Escape)) :
    (handle_event (RawEvent.KeyboardInput ev) w st).2.1
      = some (Input.Text s) := by
  cases hr : ev.key_repeat <;> simp [handle_event, h1, h2, hr]

/-- Witness for the amended claim C6 at a concrete tab-text event. -/
theorem C6_witness :
    (handle_event (RawEvent.KeyboardInput c6_ev) true c6_state).2.1
      = some (Input.Text "\t") :=
  C6_amended_text_passthrough c6_state c6_ev "\t" true rfl (by simp [c6_state, c6_ev, init_state])

/-- Counterexample to claim C7 as stated: from a baseline at the origin,
enabling then immediately disabling capture (with a successful warp and no
intervening move) moves the recorded baseline to the window center
`(320,240)`. -/
theorem C7_counterexample :
    (set_capture_cursor false true
        (set_capture_cursor true true c7_state)).last_cursor_pos
      = some (320, 240) ∧
    c7_state.last_cursor_pos = some (0, 0) := by
  constructor
  · norm_num [c7_state, init_state, set_capture_cursor, fake_capture, size]
    simp
    norm_num
  · rfl

/-- `fake_capture` either keeps the recorded baseline or, on a successful
warp, moves it to the window center. -/
theorem fake_capture_lcp (w : Bool) (st : GlutinWindow) :
    (fake_capture w st).1.last_cursor_pos = st.last_cursor_pos ∨
    (w = true ∧ (fake_capture w st).1.last_cursor_pos
        = some ((size st).1 / 2, (size st).2 / 2)) := by
  unfold fake_capture
  rcases hl : st.last_cursor_pos with _ | p
  · left
    exact hl
  · dsimp only
    split
    · cases w
      · left
        exact hl
      · right
        exact ⟨rfl, rfl⟩
    · left
      exact hl

/-- `set_capture_cursor` never touches the event queue. -/
theorem set_capture_cursor_events (v w : Bool) (st : GlutinWindow) :
    (set_capture_cursor v w st).events = st.events := by
  unfold set_capture_cursor
  dsimp only
  split
  · rw [fake_capture_events]
  · rfl

/-- Disabling capture never touches the recorded baseline. -/
theorem set_capture_cursor_disable_lcp (w : Bool) (st : GlutinWindow) :
    (set_capture_cursor false w st).last_cursor_pos = st.last_cursor_pos := rfl

/-- Enabling capture either keeps the baseline or, on a successful warp,
moves it to the window center. -/
theorem set_capture_cursor_enable_lcp (w : Bool) (st : GlutinWindow) :
    (set_capture_cursor true w st).last_cursor_pos = st.last_cursor_pos ∨
    (w = true ∧ (set_capture_cursor true w st).last_cursor_pos
        = some ((size st).1 / 2, (size st).2 / 2)) := by
  have h := fake_capture_lcp w
    { st with is_capturing_cursor := true, cursor_visible := !true }
  exact h

/-- Claim C7 (amended): enabling then disabling capture with no
intervening move emits no motion event (the queue is untouched), and the
recorded baseline either stays unchanged or — when a warp succeeded —
becomes the window center. -/
theorem C7_amended_capture_toggle (st : GlutinWindow) (w1 w2 : Bool) :
    (set_capture_cursor false w2 (set_capture_cursor true w1 st)).events
        = st.events ∧
    ((set_capture_cursor false w2 (set_capture_cursor true w1 st)).last_cursor_pos
        = st.last_cursor_pos ∨
      (w1 = true ∧
        (set_capture_cursor false w2
            (set_capture_cursor true w1 st)).last_cursor_pos
          = some ((size st).1 / 2, (size st).2 / 2))) := by
  constructor
  · rw [set_capture_cursor_events, set_capture_cursor_events]
  · rw [set_capture_cursor_disable_lcp]
    exact set_capture_cursor_enable_lcp w1 st

/-- Claim C9, evaluated at the failing input: after the raw moves
`(10,10)`, `(15,12)` the relative delta `(5,2)` is pending; handling a
third raw move `(20,20)` drains it but enqueues it after that move's own
translation, so the caller receives the new translation first. -/
theorem C9_pending_emitted_after_translation :
    c9_s2.mouse_relative = some (5, 2) ∧
    c9_s3.events = [Input.Move (Motion.MouseCursor (10, 10)),
                    Input.Move (Motion.MouseCursor (15, 12)),
                    Input.Move (Motion.MouseCursor (20, 20)),
                    Input.Move (Motion.MouseRelative (5, 2))] := by
  norm_num [c9_s3, c9_s2, c9_s1, c9_s0, init_state, window_event,
    window_event_generic, handle_event, handle_event_generic,
    pre_pop_front_event, cursor_move_input, push_event, fake_capture, mapst,
    set_mapst, map_window_event]

end Glutin
